import Mathlib

/-!
Verification of the lywsd03mmc-visu core: the sample classifier
(`TryFrom<BtHomeV2> for BtHomeV2Sample` in src/sample_handler.rs), the
per-sensor aggregator (`SensorHandler` in src/sample_handler.rs) and the
device router (`handle_dev_changed_prop_evt` in src/main.rs), shallowly
embedded in Lean.  Raw integer element values are modelled as `Int`/`Nat`
and the floating-point semantic values as rationals; the external decoder,
the mailbox send and the sink write are modelled as explicit function
parameters or outcome oracles.
-/

namespace LywsdVisu

/-- Raw byte payload of one service-data entry. -/
abbrev RawPayload := List Nat

/-- Hardware address of a sensor (opaque comparable identity). -/
abbrev Address := Nat

/-- Decoded BTHome v2 element, restricted to the constructors the code
matches on; every other element kind is collapsed into `other`
(the `_ => {}` arm of the Rust `match`). `temperatureSmall` carries a
signed raw value, the rest unsigned raw values. -/
inductive Element where
  | temperatureSmall (raw : Int)
  | humidity (raw : Nat)
  | battery (raw : Nat)
  | voltageSmall (raw : Nat)
  | other
deriving DecidableEq

/-- Decoded advertisement: ordered sequence of elements. -/
structure BtHomeV2 where
  elements : List Element
deriving DecidableEq

/-- `MeteoSample` from src/sample_handler.rs. -/
structure MeteoSample where
  temperature : ℚ
  humidity : ℚ
  battery_level : Nat
deriving DecidableEq

/-- `VoltageSample` from src/sample_handler.rs. -/
structure VoltageSample where
  battery_voltage : ℚ
deriving DecidableEq

/-- `BtHomeV2Sample` from src/sample_handler.rs. -/
inductive BtHomeV2Sample where
  | meteo (m : MeteoSample)
  | voltage (v : VoltageSample)
deriving DecidableEq

/-- The four mutable locals of the classifier scan loop
(`temperature`, `humidity`, `battery_level`, `battery_voltage`). -/
structure ScanState where
  temperature : Option ℚ
  humidity : Option ℚ
  battery_level : Option Nat
  battery_voltage : Option ℚ
deriving DecidableEq

/-- Initial scan state: all four locals start at `None`. -/
def ScanState.init : ScanState := ⟨none, none, none, none⟩

/-- Scaling applied to a raw temperature value: `1e-2 * f32::from(...)`. -/
def scaleTemperature (raw : Int) : ℚ := (1 : ℚ) / 100 * raw

/-- Scaling applied to a raw humidity value: `1e-2 * f32::from(...)`. -/
def scaleHumidity (raw : Nat) : ℚ := (1 : ℚ) / 100 * raw

/-- Scaling applied to a raw voltage value: `1e-3 * f32::from(...)`. -/
def scaleVoltage (raw : Nat) : ℚ := (1 : ℚ) / 1000 * raw

/-- One iteration of the classifier's `for element in value.elements` loop. -/
def scanStep (s : ScanState) (e : Element) : ScanState :=
  match e with
  | .temperatureSmall raw => { s with temperature := some (scaleTemperature raw) }
  | .humidity raw => { s with humidity := some (scaleHumidity raw) }
  | .battery raw => { s with battery_level := some raw }
  | .voltageSmall raw => { s with battery_voltage := some (scaleVoltage raw) }
  | .other => s

/-- The whole scan loop of the classifier. -/
def scanElements (es : List Element) : ScanState := es.foldl scanStep ScanState.init

/-- `impl TryFrom<BtHomeV2> for BtHomeV2Sample` (src/sample_handler.rs):
scan the elements, return `Meteo` when temperature, humidity and battery
level are all set, else `Voltage` when a battery voltage is set, else the
unit error. -/
def BtHomeV2Sample.tryFrom (value : BtHomeV2) : Except Unit BtHomeV2Sample :=
  let s := scanElements value.elements
  match s.temperature, s.humidity, s.battery_level with
  | some temperature, some humidity, some battery_level =>
      .ok (.meteo ⟨temperature, humidity, battery_level⟩)
  | _, _, _ =>
      match s.battery_voltage with
      | some battery_voltage => .ok (.voltage ⟨battery_voltage⟩)
      | none => .error ()

/-- `true` exactly on temperature elements. -/
def Element.isTemperature : Element → Bool
  | .temperatureSmall _ => true
  | _ => false

/-- `true` exactly on humidity elements. -/
def Element.isHumidity : Element → Bool
  | .humidity _ => true
  | _ => false

/-- `true` exactly on battery-level elements. -/
def Element.isBattery : Element → Bool
  | .battery _ => true
  | _ => false

/-- `true` exactly on battery-voltage elements. -/
def Element.isVoltage : Element → Bool
  | .voltageSmall _ => true
  | _ => false

/-- Raw value observer for temperature elements. -/
def tempRaw : Element → Option Int
  | .temperatureSmall raw => some raw
  | _ => none

/-- Raw value observer for humidity elements. -/
def humRaw : Element → Option Nat
  | .humidity raw => some raw
  | _ => none

/-- Raw value observer for battery-level elements. -/
def batRaw : Element → Option Nat
  | .battery raw => some raw
  | _ => none

/-- Raw value observer for battery-voltage elements. -/
def voltRaw : Element → Option Nat
  | .voltageSmall raw => some raw
  | _ => none

/-- Raw value of the last element of a given kind in the list, the value
the overwrite-in-order scan loop retains. -/
def lastRaw (f : Element → Option α) (es : List Element) : Option α :=
  es.foldl (fun a e => (f e).or a) none

/-- `Battery` from src/sample_handler.rs. -/
structure Battery where
  voltage : ℚ
  level : Nat
deriving DecidableEq

/-- `Sample` from src/sample_handler.rs: a completed record.  The capture
timestamp is modelled as an abstract tick (`Nat`). -/
structure Sample where
  timestamp : Nat
  sensor_addr : Address
  room : String
  temperature : ℚ
  humidity : ℚ
  battery : Battery
deriving DecidableEq

/-- `impl From<(MeteoSample, VoltageSample, DateTime<Utc>, Address, &str)>
for Sample` (src/sample_handler.rs). -/
def Sample.fromParts (meteo : MeteoSample) (voltage : VoltageSample)
    (timestamp : Nat) (sensor_addr : Address) (room : String) : Sample :=
  { timestamp := timestamp
    sensor_addr := sensor_addr
    room := room
    temperature := meteo.temperature
    humidity := meteo.humidity
    battery := { voltage := voltage.battery_voltage, level := meteo.battery_level } }

/-- `SensorHandler` state (src/sample_handler.rs).  The mailbox receiver is
not part of the state here (the message list is fed to `run` directly);
`influx_live` models `influx_client.is_some()` — `true` in Live mode,
`false` in dry-run. -/
structure SensorHandler where
  sensor_addr : Address
  room : String
  influx_live : Bool
  influx_measurement : String
  be_verbose : Bool
  last_voltage : Option VoltageSample
deriving DecidableEq

/-- `SensorHandler::new`: all configuration fields stored, `last_voltage`
starting at `None`. -/
def SensorHandler.new (sensor_addr : Address) (room : String) (influx_live : Bool)
    (influx_measurement : String) (be_verbose : Bool) : SensorHandler :=
  { sensor_addr := sensor_addr
    room := room
    influx_live := influx_live
    influx_measurement := influx_measurement
    be_verbose := be_verbose
    last_voltage := none }

/-- Outcome of running a sensor worker over a finite mailbox prefix:
the completed records handed to the sink adapter in order, whether the
worker aborted on an `unwrap` of a failed sink write, and the worker
state after the last processed message. -/
structure RunResult where
  emitted : List Sample
  panicked : Bool
  final : SensorHandler
deriving DecidableEq

/-- `SensorHandler::run` over a finite list of mailbox messages, each
paired with the capture tick `Utc::now()` would return.  `sinkOk` is the
outcome oracle of the sink write: in Live mode a record whose write fails
makes the `unwrap` panic, aborting the worker with the remaining messages
unprocessed. -/
def SensorHandler.run (sinkOk : Sample → Bool) :
    SensorHandler → List (BtHomeV2 × Nat) → RunResult
  | h, [] => ⟨[], false, h⟩
  | h, (msg, now) :: rest =>
    match BtHomeV2Sample.tryFrom msg with
    | .ok (.meteo meteo) =>
        match h.last_voltage with
        | some voltage =>
            let sample := Sample.fromParts meteo voltage now h.sensor_addr h.room
            if h.influx_live then
              if sinkOk sample then
                let r := SensorHandler.run sinkOk h rest
                ⟨sample :: r.emitted, r.panicked, r.final⟩
              else
                ⟨[], true, h⟩
            else
              let r := SensorHandler.run sinkOk h rest
              ⟨sample :: r.emitted, r.panicked, r.final⟩
        | none => SensorHandler.run sinkOk h rest
    | .ok (.voltage voltage) =>
        SensorHandler.run sinkOk { h with last_voltage := some voltage } rest
    | .error _ => SensorHandler.run sinkOk h rest

/-- `WEATHER_SAMPLE_UUID_HEADER` from src/main.rs: the first `as_fields`
component of the service-data UUID that carries weather advertisements. -/
def WEATHER_SAMPLE_UUID_HEADER : Nat := 0x0000fcd2

/-- A changed device property: either a service-data map (modelled as an
association list from the UUID's leading 32-bit field to the raw payload)
or any other property, which the router ignores. -/
inductive DeviceProperty where
  | serviceData (entries : List (Nat × RawPayload))
  | otherProperty
deriving DecidableEq

/-- Observable outcome of the router on one property-change event:
the payloads handed to the external decoder in order, the decoded
advertisements whose mailbox send succeeded, in order, and how many
errors (decode or send) were printed. -/
structure RouterOutcome where
  decodeCalls : List RawPayload
  sent : List BtHomeV2
  logged : Nat
deriving DecidableEq

/-- The `for (uuid, raw_sample) in &service_data` loop of
`handle_dev_changed_prop_evt` (src/main.rs).  `decode` is the external
`BtHomeV2::decode`; `sendOk` tells whether the mailbox send of a decoded
advertisement succeeds (`false` models a closed channel).  Errors are
logged and the loop continues; nothing is propagated. -/
def routeEntries (decode : RawPayload → Except Unit BtHomeV2)
    (sendOk : BtHomeV2 → Bool) : List (Nat × RawPayload) → RouterOutcome
  | [] => ⟨[], [], 0⟩
  | (uuid, raw) :: rest =>
    let tail := routeEntries decode sendOk rest
    if uuid = WEATHER_SAMPLE_UUID_HEADER then
      match decode raw with
      | .ok bthome =>
          if sendOk bthome then
            ⟨raw :: tail.decodeCalls, bthome :: tail.sent, tail.logged⟩
          else
            ⟨raw :: tail.decodeCalls, tail.sent, tail.logged + 1⟩
      | .error _ => ⟨raw :: tail.decodeCalls, tail.sent, tail.logged + 1⟩
    else tail

/-- `handle_dev_changed_prop_evt` (src/main.rs): only `ServiceData`
properties are examined; every other property produces nothing. -/
def handle_dev_changed_prop_evt (decode : RawPayload → Except Unit BtHomeV2)
    (sendOk : BtHomeV2 → Bool) : DeviceProperty → RouterOutcome
  | .serviceData entries => routeEntries decode sendOk entries
  | .otherProperty => ⟨[], [], 0⟩

/-- `true` on a message the classifier recognizes as a voltage sample. -/
def isVoltageMsg (msg : BtHomeV2) : Bool :=
  match BtHomeV2Sample.tryFrom msg with
  | .ok (.voltage _) => true
  | _ => false

/-! ### Lemmas about the classifier scan loop -/

lemma lastRaw_go (f : Element → Option α) (es : List Element) (a : Option α) :
    es.foldl (fun a e => (f e).or a) a = (lastRaw f es).or a := by
  induction es generalizing a with
  | nil => simp [lastRaw]
  | cons e rest ih =>
    simp only [lastRaw, List.foldl_cons] at *
    rw [ih ((f e).or a), ih ((f e).or none)]
    simp [Option.or_assoc]

lemma lastRaw_cons (f : Element → Option α) (e : Element) (rest : List Element) :
    lastRaw f (e :: rest) = (lastRaw f rest).or (f e) := by
  have h := lastRaw_go f rest ((f e).or none)
  simp only [lastRaw, List.foldl_cons]
  simp only [lastRaw] at h
  rw [h, Option.or_none]

lemma lastRaw_append (f : Element → Option α) (xs ys : List Element) :
    lastRaw f (xs ++ ys) = (lastRaw f ys).or (lastRaw f xs) := by
  have h := lastRaw_go f ys (xs.foldl (fun a e => (f e).or a) none)
  simp only [lastRaw, List.foldl_append]
  simp only [lastRaw] at h
  rw [h]

lemma scan_go_temperature (es : List Element) (s : ScanState) :
    (es.foldl scanStep s).temperature =
      ((lastRaw tempRaw es).map scaleTemperature).or s.temperature := by
  induction es generalizing s with
  | nil => simp [lastRaw]
  | cons e rest ih =>
    rw [List.foldl_cons, ih, lastRaw_cons]
    cases e <;> cases lastRaw tempRaw rest <;> simp [scanStep, tempRaw]

lemma scan_go_humidity (es : List Element) (s : ScanState) :
    (es.foldl scanStep s).humidity =
      ((lastRaw humRaw es).map scaleHumidity).or s.humidity := by
  induction es generalizing s with
  | nil => simp [lastRaw]
  | cons e rest ih =>
    rw [List.foldl_cons, ih, lastRaw_cons]
    cases e <;> cases lastRaw humRaw rest <;> simp [scanStep, humRaw]

lemma scan_go_battery (es : List Element) (s : ScanState) :
    (es.foldl scanStep s).battery_level = (lastRaw batRaw es).or s.battery_level := by
  induction es generalizing s with
  | nil => simp [lastRaw]
  | cons e rest ih =>
    rw [List.foldl_cons, ih, lastRaw_cons]
    cases e <;> cases lastRaw batRaw rest <;> simp [scanStep, batRaw]

lemma scan_go_voltage (es : List Element) (s : ScanState) :
    (es.foldl scanStep s).battery_voltage =
      ((lastRaw voltRaw es).map scaleVoltage).or s.battery_voltage := by
  induction es generalizing s with
  | nil => simp [lastRaw]
  | cons e rest ih =>
    rw [List.foldl_cons, ih, lastRaw_cons]
    cases e <;> cases lastRaw voltRaw rest <;> simp [scanStep, voltRaw]

lemma scanElements_temperature (es : List Element) :
    (scanElements es).temperature = (lastRaw tempRaw es).map scaleTemperature := by
  simp [scanElements, ScanState.init, scan_go_temperature]

lemma scanElements_humidity (es : List Element) :
    (scanElements es).humidity = (lastRaw humRaw es).map scaleHumidity := by
  simp [scanElements, ScanState.init, scan_go_humidity]

lemma scanElements_battery (es : List Element) :
    (scanElements es).battery_level = lastRaw batRaw es := by
  simp [scanElements, ScanState.init, scan_go_battery]

lemma scanElements_voltage (es : List Element) :
    (scanElements es).battery_voltage = (lastRaw voltRaw es).map scaleVoltage := by
  simp [scanElements, ScanState.init, scan_go_voltage]

lemma lastRaw_isSome_temperature (es : List Element) :
    (lastRaw tempRaw es).isSome = es.any Element.isTemperature := by
  induction es with
  | nil => simp [lastRaw]
  | cons e rest ih =>
    rw [lastRaw_cons, List.any_cons, Option.isSome_or, ih]
    cases e <;> simp [tempRaw, Element.isTemperature, Bool.or_comm]

lemma lastRaw_isSome_humidity (es : List Element) :
    (lastRaw humRaw es).isSome = es.any Element.isHumidity := by
  induction es with
  | nil => simp [lastRaw]
  | cons e rest ih =>
    rw [lastRaw_cons, List.any_cons, Option.isSome_or, ih]
    cases e <;> simp [humRaw, Element.isHumidity, Bool.or_comm]

lemma lastRaw_isSome_battery (es : List Element) :
    (lastRaw batRaw es).isSome = es.any Element.isBattery := by
  induction es with
  | nil => simp [lastRaw]
  | cons e rest ih =>
    rw [lastRaw_cons, List.any_cons, Option.isSome_or, ih]
    cases e <;> simp [batRaw, Element.isBattery, Bool.or_comm]

lemma lastRaw_isSome_voltage (es : List Element) :
    (lastRaw voltRaw es).isSome = es.any Element.isVoltage := by
  induction es with
  | nil => simp [lastRaw]
  | cons e rest ih =>
    rw [lastRaw_cons, List.any_cons, Option.isSome_or, ih]
    cases e <;> simp [voltRaw, Element.isVoltage, Bool.or_comm]

/-! ### Claim theorems -/

/-- C1: classification yields `Meteo` exactly when temperature, humidity and
battery-level elements are all present; otherwise `Voltage` exactly when a
battery-voltage element is present; otherwise the unit error (Unrecognized).
When both the meteo triple and a voltage element are present, `Meteo` wins. -/
theorem classifier_meteo_voltage_priority (v : BtHomeV2) :
    ((∃ m, BtHomeV2Sample.tryFrom v = .ok (.meteo m)) ↔
      (v.elements.any Element.isTemperature = true ∧
       v.elements.any Element.isHumidity = true ∧
       v.elements.any Element.isBattery = true))
    ∧ ((∃ w, BtHomeV2Sample.tryFrom v = .ok (.voltage w)) ↔
      (v.elements.any Element.isVoltage = true ∧
       ¬(v.elements.any Element.isTemperature = true ∧
         v.elements.any Element.isHumidity = true ∧
         v.elements.any Element.isBattery = true)))
    ∧ (BtHomeV2Sample.tryFrom v = .error () ↔
      (v.elements.any Element.isVoltage = false ∧
       ¬(v.elements.any Element.isTemperature = true ∧
         v.elements.any Element.isHumidity = true ∧
         v.elements.any Element.isBattery = true))) := by
  have ht := scanElements_temperature v.elements
  have hh := scanElements_humidity v.elements
  have hb := scanElements_battery v.elements
  have hv := scanElements_voltage v.elements
  have pt := lastRaw_isSome_temperature v.elements
  have ph := lastRaw_isSome_humidity v.elements
  have pb := lastRaw_isSome_battery v.elements
  have pv := lastRaw_isSome_voltage v.elements
  rcases htr : lastRaw tempRaw v.elements with _ | t <;>
    rcases hhr : lastRaw humRaw v.elements with _ | hu <;>
      rcases hbr : lastRaw batRaw v.elements with _ | b <;>
        rcases hvr : lastRaw voltRaw v.elements with _ | w <;>
          simp [BtHomeV2Sample.tryFrom, ht, hh, hb, hv, htr, hhr, hbr, hvr,
            ← pt, ← ph, ← pb, ← pv]

/-- C5: the classifier converts raw integers by fixed scaling: temperature
and humidity by a factor 1/100, battery voltage by a factor 1/1000, and the
battery level unscaled, always from the retained (last) raw occurrence. -/
theorem classifier_fixed_scaling (v : BtHomeV2) :
    (∀ m, BtHomeV2Sample.tryFrom v = .ok (.meteo m) →
      some m.temperature = (lastRaw tempRaw v.elements).map scaleTemperature ∧
      some m.humidity = (lastRaw humRaw v.elements).map scaleHumidity ∧
      some m.battery_level = lastRaw batRaw v.elements)
    ∧ (∀ w, BtHomeV2Sample.tryFrom v = .ok (.voltage w) →
      some w.battery_voltage = (lastRaw voltRaw v.elements).map scaleVoltage) := by
  have ht := scanElements_temperature v.elements
  have hh := scanElements_humidity v.elements
  have hb := scanElements_battery v.elements
  have hv := scanElements_voltage v.elements
  constructor
  · intro m hm
    rcases htr : lastRaw tempRaw v.elements with _ | t <;>
      rcases hhr : lastRaw humRaw v.elements with _ | hu <;>
        rcases hbr : lastRaw batRaw v.elements with _ | b <;>
          rcases hvr : lastRaw voltRaw v.elements with _ | w <;>
            simp [BtHomeV2Sample.tryFrom, ht, hh, hb, hv, htr, hhr, hbr, hvr] at hm <;>
            simp [← hm]
  · intro w hw
    rcases htr : lastRaw tempRaw v.elements with _ | t <;>
      rcases hhr : lastRaw humRaw v.elements with _ | hu <;>
        rcases hbr : lastRaw batRaw v.elements with _ | b <;>
          rcases hvr : lastRaw voltRaw v.elements with _ | wv <;>
            simp [BtHomeV2Sample.tryFrom, ht, hh, hb, hv, htr, hhr, hbr, hvr] at hw <;>
            simp [← hw]

lemma lastRaw_none_of_isSome_false (f : Element → Option α) (es : List Element)
    (h : (lastRaw f es).isSome = false) : lastRaw f es = none := by
  rcases he : lastRaw f es with _ | a
  · rfl
  · rw [he] at h
    simp at h

/-- C6: when several elements of the same recognized field type occur, the
classifier keeps the value of the last occurrence in the set order; earlier
occurrences are overwritten during the single scan. -/
theorem classifier_last_occurrence_wins (pre mid post : List Element) :
    (∀ r r' : Int, post.any Element.isTemperature = false →
      (scanElements (pre ++ (Element.temperatureSmall r ::
          (mid ++ (Element.temperatureSmall r' :: post))))).temperature
        = some (scaleTemperature r'))
    ∧ (∀ r r' : Nat, post.any Element.isHumidity = false →
      (scanElements (pre ++ (Element.humidity r ::
          (mid ++ (Element.humidity r' :: post))))).humidity
        = some (scaleHumidity r'))
    ∧ (∀ r r' : Nat, post.any Element.isBattery = false →
      (scanElements (pre ++ (Element.battery r ::
          (mid ++ (Element.battery r' :: post))))).battery_level
        = some r')
    ∧ (∀ r r' : Nat, post.any Element.isVoltage = false →
      (scanElements (pre ++ (Element.voltageSmall r ::
          (mid ++ (Element.voltageSmall r' :: post))))).battery_voltage
        = some (scaleVoltage r')) := by
  refine ⟨?_, ?_, ?_, ?_⟩ <;> intro r r' hpost
  · have hnone : lastRaw tempRaw post = none :=
      lastRaw_none_of_isSome_false _ _ (by rw [lastRaw_isSome_temperature]; exact hpost)
    simp [scanElements_temperature, lastRaw_append, lastRaw_cons, hnone, tempRaw]
  · have hnone : lastRaw humRaw post = none :=
      lastRaw_none_of_isSome_false _ _ (by rw [lastRaw_isSome_humidity]; exact hpost)
    simp [scanElements_humidity, lastRaw_append, lastRaw_cons, hnone, humRaw]
  · have hnone : lastRaw batRaw post = none :=
      lastRaw_none_of_isSome_false _ _ (by rw [lastRaw_isSome_battery]; exact hpost)
    simp [scanElements_battery, lastRaw_append, lastRaw_cons, hnone, batRaw]
  · have hnone : lastRaw voltRaw post = none :=
      lastRaw_none_of_isSome_false _ _ (by rw [lastRaw_isSome_voltage]; exact hpost)
    simp [scanElements_voltage, lastRaw_append, lastRaw_cons, hnone, voltRaw]

/-- C2: with a latched voltage `some v`, a Meteo sample `m` produces exactly
one completed record taking temperature, humidity and battery level from `m`
and battery voltage from `v`; after two voltage samples the latest one is
the value paired (no averaging). -/
theorem aggregator_pairs_latest_voltage :
    (∀ (sinkOk : Sample → Bool) (h : SensorHandler) voltage msg meteo now,
      h.last_voltage = some voltage →
      BtHomeV2Sample.tryFrom msg = .ok (.meteo meteo) →
      (∀ s, sinkOk s = true) →
      (SensorHandler.run sinkOk h [(msg, now)]).emitted =
        [⟨now, h.sensor_addr, h.room, meteo.temperature, meteo.humidity,
          ⟨voltage.battery_voltage, meteo.battery_level⟩⟩])
    ∧ (∀ (sinkOk : Sample → Bool) (h : SensorHandler) v1 v2 meteo msg1 msg2 msg3 t1 t2 t3,
      BtHomeV2Sample.tryFrom msg1 = .ok (.voltage v1) →
      BtHomeV2Sample.tryFrom msg2 = .ok (.voltage v2) →
      BtHomeV2Sample.tryFrom msg3 = .ok (.meteo meteo) →
      (∀ s, sinkOk s = true) →
      (SensorHandler.run sinkOk h [(msg1, t1), (msg2, t2), (msg3, t3)]).emitted =
        [⟨t3, h.sensor_addr, h.room, meteo.temperature, meteo.humidity,
          ⟨v2.battery_voltage, meteo.battery_level⟩⟩]) := by
  constructor
  · intro sinkOk h voltage msg meteo now hlv htf hsink
    rcases hl : h.influx_live <;>
      simp [SensorHandler.run, htf, hlv, hl, hsink, Sample.fromParts]
  · intro sinkOk h v1 v2 meteo msg1 msg2 msg3 t1 t2 t3 h1 h2 h3 hsink
    rcases hl : h.influx_live <;>
      simp [SensorHandler.run, h1, h2, h3, hl, hsink, Sample.fromParts]

lemma run_no_voltage (sinkOk : Sample → Bool) (h : SensorHandler)
    (hlv : h.last_voltage = none) :
    ∀ msgs : List (BtHomeV2 × Nat), (∀ p ∈ msgs, isVoltageMsg p.1 = false) →
    SensorHandler.run sinkOk h msgs = ⟨[], false, h⟩ := by
  intro msgs
  induction msgs with
  | nil => intro _; simp [SensorHandler.run]
  | cons p rest ih =>
    intro hmsgs
    obtain ⟨msg, now⟩ := p
    have hhead : isVoltageMsg msg = false := hmsgs (msg, now) (List.mem_cons_self _ _)
    have hrest : ∀ q ∈ rest, isVoltageMsg q.1 = false :=
      fun q hq => hmsgs q (List.mem_cons_of_mem _ hq)
    rcases htf : BtHomeV2Sample.tryFrom msg with e | s
    · simp [SensorHandler.run, htf, ih hrest]
    · rcases s with m | w
      · simp [SensorHandler.run, htf, hlv, ih hrest]
      · exfalso
        rw [isVoltageMsg, htf] at hhead
        simp at hhead

/-- C3: an aggregator that has never received a Voltage sample emits zero
records: any message list without a voltage-classified message leaves the
freshly created worker with an empty output. -/
theorem aggregator_cold_start_drops (sinkOk : Sample → Bool) (addr : Address)
    (room : String) (live : Bool) (meas : String) (verb : Bool)
    (msgs : List (BtHomeV2 × Nat))
    (hmsgs : ∀ p ∈ msgs, isVoltageMsg p.1 = false) :
    (SensorHandler.run sinkOk (SensorHandler.new addr room live meas verb) msgs).emitted
      = [] := by
  rw [run_no_voltage sinkOk _ rfl msgs hmsgs]

lemma run_voltage_isSome (sinkOk : Sample → Bool) :
    ∀ (msgs : List (BtHomeV2 × Nat)) (h : SensorHandler),
      h.last_voltage.isSome = true →
      ((SensorHandler.run sinkOk h msgs).final.last_voltage).isSome = true := by
  intro msgs
  induction msgs with
  | nil => intro h hs; simpa [SensorHandler.run]
  | cons p rest ih =>
    intro h hs
    obtain ⟨msg, now⟩ := p
    rcases htf : BtHomeV2Sample.tryFrom msg with e | s
    · simpa [SensorHandler.run, htf] using ih h hs
    · rcases s with m | w
      · rcases hlv : h.last_voltage with _ | v
        · rw [hlv] at hs; simp at hs
        · rcases hl : h.influx_live
          · simpa [SensorHandler.run, htf, hlv, hl] using ih h hs
          · rcases hsk : sinkOk (Sample.fromParts m v now h.sensor_addr h.room)
            · simp [SensorHandler.run, htf, hlv, hl, hsk, hs]
            · simpa [SensorHandler.run, htf, hlv, hl, hsk] using ih h hs
      · simpa [SensorHandler.run, htf] using ih { h with last_voltage := some w } (by simp)

/-- C4: the latched voltage starts as `none` at worker creation, is set by a
Voltage sample to that sample, is left unchanged by any non-Voltage message,
and once set is never reset to `none` by any subsequent message list. -/
theorem last_voltage_invariant :
    (∀ (addr : Address) (room : String) (live : Bool) (meas : String) (verb : Bool),
      (SensorHandler.new addr room live meas verb).last_voltage = none)
    ∧ (∀ (sinkOk : Sample → Bool) (h : SensorHandler) msg now voltage,
      BtHomeV2Sample.tryFrom msg = .ok (.voltage voltage) →
      (SensorHandler.run sinkOk h [(msg, now)]).final.last_voltage = some voltage)
    ∧ (∀ (sinkOk : Sample → Bool) (h : SensorHandler) msg now,
      isVoltageMsg msg = false →
      (SensorHandler.run sinkOk h [(msg, now)]).final.last_voltage = h.last_voltage)
    ∧ (∀ (sinkOk : Sample → Bool) (h : SensorHandler) msgs,
      h.last_voltage.isSome = true →
      ((SensorHandler.run sinkOk h msgs).final.last_voltage).isSome = true) := by
  refine ⟨?_, ?_, ?_, ?_⟩
  · intro addr room live meas verb; rfl
  · intro sinkOk h msg now voltage htf
    simp [SensorHandler.run, htf]
  · intro sinkOk h msg now hmsg
    rcases htf : BtHomeV2Sample.tryFrom msg with e | s
    · simp [SensorHandler.run, htf]
    · rcases s with m | w
      · rcases hlv : h.last_voltage with _ | v
        · simp [SensorHandler.run, htf, hlv]
        · rcases hl : h.influx_live
          · simp [SensorHandler.run, htf, hlv, hl]
          · rcases hsk : sinkOk (Sample.fromParts m v now h.sensor_addr h.room) <;>
              simp [SensorHandler.run, htf, hlv, hl, hsk]
      · exfalso
        rw [isVoltageMsg, htf] at hmsg
        simp at hmsg
  · intro sinkOk h msgs hs
    exact run_voltage_isSome sinkOk msgs h hs

/-- C9: in Live mode a failed sink write is not retried: the worker aborts
fatally on the `unwrap`, emitting nothing and leaving the rest of the
mailbox unprocessed, whatever the remaining messages are. -/
theorem sink_failure_aborts_worker (sinkOk : Sample → Bool) (h : SensorHandler)
    (voltage : VoltageSample) (msg : BtHomeV2) (meteo : MeteoSample) (now : Nat)
    (rest : List (BtHomeV2 × Nat))
    (hlive : h.influx_live = true)
    (hlv : h.last_voltage = some voltage)
    (htf : BtHomeV2Sample.tryFrom msg = .ok (.meteo meteo))
    (hsk : sinkOk (Sample.fromParts meteo voltage now h.sensor_addr h.room) = false) :
    SensorHandler.run sinkOk h ((msg, now) :: rest) = ⟨[], true, h⟩ := by
  simp [SensorHandler.run, htf, hlv, hlive, hsk]

lemma routeEntries_append (decode : RawPayload → Except Unit BtHomeV2)
    (sendOk : BtHomeV2 → Bool) (xs ys : List (Nat × RawPayload)) :
    routeEntries decode sendOk (xs ++ ys) =
      ⟨(routeEntries decode sendOk xs).decodeCalls ++ (routeEntries decode sendOk ys).decodeCalls,
       (routeEntries decode sendOk xs).sent ++ (routeEntries decode sendOk ys).sent,
       (routeEntries decode sendOk xs).logged + (routeEntries decode sendOk ys).logged⟩ := by
  induction xs with
  | nil => simp [routeEntries]
  | cons e rest ih =>
    obtain ⟨u, raw⟩ := e
    by_cases hu : u = WEATHER_SAMPLE_UUID_HEADER
    · rcases hd : decode raw with w | b
      · simp [routeEntries, hu, hd, ih]
        omega
      · rcases hs : sendOk b <;> simp [routeEntries, hu, hd, hs, ih]
        omega
    · simp [routeEntries, hu, ih]

/-- C8: the external decoder is invoked exactly on the payloads of the
service-data entries whose UUID key equals `WEATHER_SAMPLE_UUID_HEADER`
(0x0000fcd2), in order; all other entries are ignored without decoding. -/
theorem router_decode_iff_header (decode : RawPayload → Except Unit BtHomeV2)
    (sendOk : BtHomeV2 → Bool) (entries : List (Nat × RawPayload)) :
    (handle_dev_changed_prop_evt decode sendOk (.serviceData entries)).decodeCalls =
      (entries.filter (fun e => e.1 == WEATHER_SAMPLE_UUID_HEADER)).map Prod.snd := by
  induction entries with
  | nil => simp [handle_dev_changed_prop_evt, routeEntries]
  | cons e rest ih =>
    obtain ⟨u, raw⟩ := e
    simp only [handle_dev_changed_prop_evt] at *
    by_cases hu : u = WEATHER_SAMPLE_UUID_HEADER
    · rcases hd : decode raw with w | b
      · simp [routeEntries, hu, hd, ih]
      · rcases hs : sendOk b <;> simp [routeEntries, hu, hd, hs, ih]
    · simp [routeEntries, hu, ih]

/-- C7: a decode failure on one matching service-data entry is logged and
does not abort the event: entries before and after it are still decoded and
forwarded, and the router returns normally (no error is propagated). -/
theorem router_decode_failure_continues (decode : RawPayload → Except Unit BtHomeV2)
    (sendOk : BtHomeV2 → Bool) (pre post : List (Nat × RawPayload)) (raw : RawPayload)
    (hd : decode raw = .error ()) :
    handle_dev_changed_prop_evt decode sendOk
        (.serviceData (pre ++ (WEATHER_SAMPLE_UUID_HEADER, raw) :: post)) =
      ⟨(routeEntries decode sendOk pre).decodeCalls ++
         raw :: (routeEntries decode sendOk post).decodeCalls,
       (routeEntries decode sendOk pre).sent ++ (routeEntries decode sendOk post).sent,
       (routeEntries decode sendOk pre).logged + (routeEntries decode sendOk post).logged + 1⟩ := by
  simp only [handle_dev_changed_prop_evt, routeEntries_append]
  simp [routeEntries, hd]
  omega

/-- C10: a failed mailbox send of a decoded advertisement is logged and not
propagated: the remaining service-data entries of the event are still
processed and the router returns normally. -/
theorem router_send_failure_continues (decode : RawPayload → Except Unit BtHomeV2)
    (sendOk : BtHomeV2 → Bool) (pre post : List (Nat × RawPayload)) (raw : RawPayload)
    (bthome : BtHomeV2)
    (hd : decode raw = .ok bthome)
    (hs : sendOk bthome = false) :
    handle_dev_changed_prop_evt decode sendOk
        (.serviceData (pre ++ (WEATHER_SAMPLE_UUID_HEADER, raw) :: post)) =
      ⟨(routeEntries decode sendOk pre).decodeCalls ++
         raw :: (routeEntries decode sendOk post).decodeCalls,
       (routeEntries decode sendOk pre).sent ++ (routeEntries decode sendOk post).sent,
       (routeEntries decode sendOk pre).logged + (routeEntries decode sendOk post).logged + 1⟩ := by
  simp only [handle_dev_changed_prop_evt, routeEntries_append]
  simp [routeEntries, hd, hs]
  omega

/-! ### Witnesses -/

/-- Witness for C5 at the spec's example inputs: raw 2050 centi-units and
raw 3150 milli-units. -/
theorem classifier_fixed_scaling_witness :
    (some (scaleTemperature 2050) =
        (lastRaw tempRaw [Element.temperatureSmall 2050, Element.humidity 5500,
          Element.battery 90]).map scaleTemperature
      ∧ some (scaleHumidity 5500) =
        (lastRaw humRaw [Element.temperatureSmall 2050, Element.humidity 5500,
          Element.battery 90]).map scaleHumidity
      ∧ some 90 =
        lastRaw batRaw [Element.temperatureSmall 2050, Element.humidity 5500,
          Element.battery 90])
    ∧ some (scaleVoltage 3150) =
        (lastRaw voltRaw [Element.voltageSmall 3150]).map scaleVoltage :=
  ⟨(classifier_fixed_scaling
      ⟨[Element.temperatureSmall 2050, Element.humidity 5500, Element.battery 90]⟩).1
      ⟨scaleTemperature 2050, scaleHumidity 5500, 90⟩ rfl,
   (classifier_fixed_scaling ⟨[Element.voltageSmall 3150]⟩).2 ⟨scaleVoltage 3150⟩ rfl⟩

/-- Witness for C6: for each field type, a duplicated element resolves to
the later raw value. -/
theorem classifier_last_occurrence_wins_witness :
    (scanElements ([Element.other] ++ (Element.temperatureSmall 100 ::
        ([] ++ (Element.temperatureSmall 2050 :: [Element.other]))))).temperature
      = some (scaleTemperature 2050)
    ∧ (scanElements ([Element.other] ++ (Element.humidity 100 ::
        ([] ++ (Element.humidity 5500 :: [Element.other]))))).humidity
      = some (scaleHumidity 5500)
    ∧ (scanElements ([Element.other] ++ (Element.battery 10 ::
        ([] ++ (Element.battery 90 :: [Element.other]))))).battery_level
      = some 90
    ∧ (scanElements ([Element.other] ++ (Element.voltageSmall 3000 ::
        ([] ++ (Element.voltageSmall 3150 :: [Element.other]))))).battery_voltage
      = some (scaleVoltage 3150) :=
  ⟨(classifier_last_occurrence_wins [Element.other] [] [Element.other]).1 100 2050 rfl,
   (classifier_last_occurrence_wins [Element.other] [] [Element.other]).2.1 100 5500 rfl,
   (classifier_last_occurrence_wins [Element.other] [] [Element.other]).2.2.1 10 90 rfl,
   (classifier_last_occurrence_wins [Element.other] [] [Element.other]).2.2.2 3000 3150 rfl⟩

/-- Witness for C2: the spec scenarios Voltage(3.0) then Meteo, and
Voltage(3.0), Voltage(2.9) then Meteo (latest voltage 2.9 wins). -/
theorem aggregator_pairs_latest_voltage_witness :
    (SensorHandler.run (fun _ => true)
        { SensorHandler.new 7 "living" true "meas" false with
            last_voltage := some ⟨scaleVoltage 3000⟩ }
        [(⟨[Element.temperatureSmall 2000, Element.humidity 5500, Element.battery 90]⟩,
          5)]).emitted
      = [⟨5, 7, "living", scaleTemperature 2000, scaleHumidity 5500,
          ⟨scaleVoltage 3000, 90⟩⟩]
    ∧ (SensorHandler.run (fun _ => true) (SensorHandler.new 7 "living" false "meas" false)
        [(⟨[Element.voltageSmall 3000]⟩, 1), (⟨[Element.voltageSmall 2900]⟩, 2),
         (⟨[Element.temperatureSmall 2000, Element.humidity 5500, Element.battery 90]⟩,
          3)]).emitted
      = [⟨3, 7, "living", scaleTemperature 2000, scaleHumidity 5500,
          ⟨scaleVoltage 2900, 90⟩⟩] :=
  ⟨aggregator_pairs_latest_voltage.1 (fun _ => true)
      { SensorHandler.new 7 "living" true "meas" false with
          last_voltage := some ⟨scaleVoltage 3000⟩ }
      ⟨scaleVoltage 3000⟩
      ⟨[Element.temperatureSmall 2000, Element.humidity 5500, Element.battery 90]⟩
      ⟨scaleTemperature 2000, scaleHumidity 5500, 90⟩ 5 rfl rfl (fun _ => rfl),
   aggregator_pairs_latest_voltage.2 (fun _ => true)
      (SensorHandler.new 7 "living" false "meas" false)
      ⟨scaleVoltage 3000⟩ ⟨scaleVoltage 2900⟩
      ⟨scaleTemperature 2000, scaleHumidity 5500, 90⟩
      ⟨[Element.voltageSmall 3000]⟩ ⟨[Element.voltageSmall 2900]⟩
      ⟨[Element.temperatureSmall 2000, Element.humidity 5500, Element.battery 90]⟩
      1 2 3 rfl rfl rfl (fun _ => rfl)⟩

/-- Witness for C3: a fresh worker fed a Meteo message and an undecodable
message emits nothing. -/
theorem aggregator_cold_start_drops_witness :
    (SensorHandler.run (fun _ => true) (SensorHandler.new 7 "living" true "meas" false)
      [(⟨[Element.temperatureSmall 2000, Element.humidity 5500, Element.battery 90]⟩, 1),
       (⟨[]⟩, 2)]).emitted = [] :=
  aggregator_cold_start_drops (fun _ => true) 7 "living" true "meas" false
    [(⟨[Element.temperatureSmall 2000, Element.humidity 5500, Element.battery 90]⟩, 1),
     (⟨[]⟩, 2)] (by decide)

/-- Witness for C4 at concrete inputs: fresh state is `none`, a voltage
message latches it, a meteo message leaves it unchanged, and it stays set
over a later message list. -/
theorem last_voltage_invariant_witness :
    (SensorHandler.new 7 "living" true "meas" false).last_voltage = none
    ∧ (SensorHandler.run (fun _ => true) (SensorHandler.new 7 "living" true "meas" false)
        [(⟨[Element.voltageSmall 2900]⟩, 1)]).final.last_voltage = some ⟨scaleVoltage 2900⟩
    ∧ (SensorHandler.run (fun _ => true) (SensorHandler.new 7 "living" true "meas" false)
        [(⟨[Element.temperatureSmall 2000, Element.humidity 5500, Element.battery 90]⟩,
          1)]).final.last_voltage = (SensorHandler.new 7 "living" true "meas" false).last_voltage
    ∧ ((SensorHandler.run (fun _ => true)
        { SensorHandler.new 7 "living" true "meas" false with
            last_voltage := some ⟨scaleVoltage 3000⟩ }
        [(⟨[Element.temperatureSmall 2000, Element.humidity 5500, Element.battery 90]⟩,
          1), (⟨[]⟩, 2)]).final.last_voltage).isSome = true :=
  ⟨last_voltage_invariant.1 7 "living" true "meas" false,
   last_voltage_invariant.2.1 (fun _ => true) (SensorHandler.new 7 "living" true "meas" false)
     ⟨[Element.voltageSmall 2900]⟩ 1 ⟨scaleVoltage 2900⟩ rfl,
   last_voltage_invariant.2.2.1 (fun _ => true) (SensorHandler.new 7 "living" true "meas" false)
     ⟨[Element.temperatureSmall 2000, Element.humidity 5500, Element.battery 90]⟩ 1 rfl,
   last_voltage_invariant.2.2.2 (fun _ => true)
     { SensorHandler.new 7 "living" true "meas" false with
         last_voltage := some ⟨scaleVoltage 3000⟩ }
     [(⟨[Element.temperatureSmall 2000, Element.humidity 5500, Element.battery 90]⟩, 1),
      (⟨[]⟩, 2)] rfl⟩

/-- Witness for C9: with a failing sink, a Live worker holding a latched
voltage aborts on the first Meteo message, leaving the rest unprocessed. -/
theorem sink_failure_aborts_worker_witness :
    SensorHandler.run (fun _ => false)
        { SensorHandler.new 7 "living" true "meas" false with
            last_voltage := some ⟨scaleVoltage 3000⟩ }
        [(⟨[Element.temperatureSmall 2000, Element.humidity 5500, Element.battery 90]⟩, 3),
         (⟨[Element.voltageSmall 2900]⟩, 4)]
      = ⟨[], true,
         { SensorHandler.new 7 "living" true "meas" false with
             last_voltage := some ⟨scaleVoltage 3000⟩ }⟩ :=
  sink_failure_aborts_worker (fun _ => false)
    { SensorHandler.new 7 "living" true "meas" false with
        last_voltage := some ⟨scaleVoltage 3000⟩ }
    ⟨scaleVoltage 3000⟩
    ⟨[Element.temperatureSmall 2000, Element.humidity 5500, Element.battery 90]⟩
    ⟨scaleTemperature 2000, scaleHumidity 5500, 90⟩ 3
    [(⟨[Element.voltageSmall 2900]⟩, 4)] rfl rfl rfl rfl

/-- Witness for C7: a decode failure on the matching head payload still lets
a later matching entry be decoded and forwarded. -/
theorem router_decode_failure_continues_witness :
    handle_dev_changed_prop_evt
        (fun raw => if raw = [1] then .error () else .ok ⟨[Element.voltageSmall 3000]⟩)
        (fun _ => true)
        (.serviceData ([(5, [2])] ++ (WEATHER_SAMPLE_UUID_HEADER, [1]) ::
          [(WEATHER_SAMPLE_UUID_HEADER, [3])]))
      = ⟨[[1], [3]], [⟨[Element.voltageSmall 3000]⟩], 1⟩ :=
  router_decode_failure_continues
    (fun raw => if raw = [1] then .error () else .ok ⟨[Element.voltageSmall 3000]⟩)
    (fun _ => true) [(5, [2])] [(WEATHER_SAMPLE_UUID_HEADER, [3])] [1] rfl

/-- Witness for C10: a failed send of a decoded advertisement is counted as
a logged error and the remaining entry is still examined. -/
theorem router_send_failure_continues_witness :
    handle_dev_changed_prop_evt
        (fun _ => .ok ⟨[Element.voltageSmall 3000]⟩) (fun _ => false)
        (.serviceData ([(5, [2])] ++ (WEATHER_SAMPLE_UUID_HEADER, [1]) :: [(6, [4])]))
      = ⟨[[1]], [], 1⟩ :=
  router_send_failure_continues
    (fun _ => .ok ⟨[Element.voltageSmall 3000]⟩) (fun _ => false)
    [(5, [2])] [(6, [4])] [1] ⟨[Element.voltageSmall 3000]⟩ rfl rfl

end LywsdVisu
